import Mathlib

/-!
Shallow embedding of the Gabz laundromat payment-webhook route, the receipt
page loader, and the receipt renderer, together with theorems checking the
specification claims against these definitions.

The webhook route (Next.js route handler) is embedded as a pure function
from the request data and the results of the external calls (document store,
messaging service) to the HTTP response and the trace of external calls
performed.  The HMAC digest itself is a Node crypto library call, so it is
an abstract function parameter of the embedding.
-/

namespace Gabz

/-- Payment status values used by the webhook handler (lib/types). -/
inductive PaymentStatus where
  | pending
  | paid
  | failed
deriving DecidableEq, Repr

/-- Order status values used by the webhook handler (lib/types). -/
inductive OrderStatus where
  | pending
  | confirmed
deriving DecidableEq, Repr

/-- Result of one awaited external call: it either returned with a success
flag, or threw an exception. -/
inductive CallResult where
  | ok (success : Bool)
  | threw
deriving DecidableEq, Repr

/-- JavaScript truthiness of an optional string: undefined and the empty
string are falsy. -/
def truthy : Option String → Bool
  | none => false
  | some s => s != ""

/-- JavaScript a-or-b on an optional string against a fallback, as in
metadata.orderNumber or-else metadata.orderId. -/
def jsOr (a : Option String) (b : String) : String :=
  if truthy a then a.getD "" else b

/-- The metadata object carried in a Paystack event payload, as read by the
webhook handlers. -/
structure PaymentMetadata where
  orderId : Option String
  customerPhone : Option String
  customerName : Option String
  orderNumber : Option String
  amount : Option Nat
deriving DecidableEq, Repr

/-- The data object of a Paystack event payload. -/
structure EventData where
  reference : Option String
  amount : Option Nat
  metadata : Option PaymentMetadata
deriving DecidableEq, Repr

/-- A parsed Paystack webhook event: the event-type string and the payload. -/
structure WebhookEvent where
  event : Option String
  data : EventData
deriving DecidableEq, Repr

/-- One observable external call made by the webhook handlers: a document
store write or an outbound WhatsApp message. -/
inductive Effect where
  | updatePayment (orderId : String) (status : PaymentStatus)
      (reference : Option String) (amount : Option Nat)
  | updateStatus (orderId : String) (status : OrderStatus)
      (updatedBy : String) (note : String)
  | pickupConfirmation (phone : String) (name : String) (orderRef : String)
  | paymentReminder (phone : String) (name : String) (orderRef : String)
      (amount : Nat)
deriving DecidableEq, Repr

/-- Outcomes of the external calls a single webhook delivery can make, fixed
up front so the handlers are pure functions of them. -/
structure ExternalResults where
  successUpdatePayment : CallResult
  successUpdateStatus : CallResult
  successSend : CallResult
  failedUpdatePayment : CallResult
  failedSend : CallResult
deriving DecidableEq, Repr

/-- verifyPaystackSignature from the webhook route: false when the secret is
unset or empty, otherwise exact string equality of the hex digest with the
supplied signature. -/
def verifyPaystackSignature (hmacSha512Hex : String → String → String)
    (secret : Option String) (body : String) (signature : String) : Bool :=
  if truthy secret then hmacSha512Hex (secret.getD "") body == signature
  else false

/-- handlePaymentSuccess from the webhook route: bail out without any call
when the metadata carries no (truthy) orderId; otherwise write
payment-status paid, and only if that write returned success, write order
status confirmed and, when both customerPhone and customerName are truthy,
send the pickup confirmation.  A thrown call is caught by the internal
try-catch, so the trace simply stops there.  The result of the send call is
caught as well and affects nothing. -/
def handlePaymentSuccess (data : EventData)
    (updatePaymentResult updateStatusResult sendResult : CallResult) :
    List Effect :=
  match data.metadata with
  | none => []
  | some md =>
    if truthy md.orderId then
      let oid := md.orderId.getD ""
      let e1 := Effect.updatePayment oid PaymentStatus.paid
        data.reference data.amount
      match updatePaymentResult with
      | .threw => [e1]
      | .ok false => [e1]
      | .ok true =>
        let e2 := Effect.updateStatus oid OrderStatus.confirmed "system"
          "Payment confirmed - Order ready for pickup"
        match updateStatusResult with
        | .threw => [e1, e2]
        | .ok _ =>
          if truthy md.customerPhone && truthy md.customerName then
            [e1, e2, Effect.pickupConfirmation (md.customerPhone.getD "")
              (md.customerName.getD "") (jsOr md.orderNumber oid)]
          else [e1, e2]
    else []

/-- handlePaymentFailed from the webhook route: bail out without any call
when the metadata carries no (truthy) orderId; otherwise write
payment-status failed with amount 0 and, unless that call threw, send the
payment reminder when both customerPhone and customerName are truthy (the
success flag of the write is not checked here). -/
def handlePaymentFailed (data : EventData)
    (updatePaymentResult sendResult : CallResult) : List Effect :=
  match data.metadata with
  | none => []
  | some md =>
    if truthy md.orderId then
      let oid := md.orderId.getD ""
      let e1 := Effect.updatePayment oid PaymentStatus.failed
        data.reference (some 0)
      match updatePaymentResult with
      | .threw => [e1]
      | .ok _ =>
        if truthy md.customerPhone && truthy md.customerName then
          [e1, Effect.paymentReminder (md.customerPhone.getD "")
            (md.customerName.getD "") (jsOr md.orderNumber oid)
            (md.amount.getD 0)]
        else [e1]
    else []

/-- The JSON response of the webhook route: HTTP status code and the error
or status field of the JSON body. -/
structure WebhookResponse where
  httpStatus : Nat
  errorMsg : Option String
  statusMsg : Option String
deriving DecidableEq, Repr

/-- POST from the webhook route.  The parsed argument models JSON.parse of
the body (and the event-field access): it is an exception when the body is
not valid JSON.  Returns the HTTP response and the trace of external calls
made. -/
def POST (hmacSha512Hex : String → String → String) (secret : Option String)
    (body : String) (signatureHeader : Option String)
    (parsed : Except Unit WebhookEvent) (ext : ExternalResults) :
    WebhookResponse × List Effect :=
  match signatureHeader with
  | none => (⟨400, some "Missing signature", none⟩, [])
  | some signature =>
    if verifyPaystackSignature hmacSha512Hex secret body signature then
      match parsed with
      | .error _ => (⟨500, some "Webhook processing failed", none⟩, [])
      | .ok ev =>
        let effects :=
          match ev.event with
          | none => []
          | some en =>
            if en = "charge.success" then
              handlePaymentSuccess ev.data ext.successUpdatePayment
                ext.successUpdateStatus ext.successSend
            else if en = "charge.failed" then
              handlePaymentFailed ev.data ext.failedUpdatePayment
                ext.failedSend
            else if en = "transfer.success" then []
            else if en = "transfer.failed" then []
            else []
        (⟨200, none, some "success"⟩, effects)
    else (⟨400, some "Invalid signature", none⟩, [])

/-- Is an effect a document store write? -/
def isDbWrite : Effect → Bool
  | .updatePayment _ _ _ _ => true
  | .updateStatus _ _ _ _ => true
  | _ => false

/-- Is an effect an outbound WhatsApp message? -/
def isSend : Effect → Bool
  | .pickupConfirmation _ _ _ => true
  | .paymentReminder _ _ _ _ => true
  | _ => false

/-- Number of document store writes in a trace. -/
def countWrites (t : List Effect) : Nat := (t.filter isDbWrite).length

/-- Number of outbound messages in a trace. -/
def countSends (t : List Effect) : Nat := (t.filter isSend).length

/-- The order fields the webhook writes touch, as stored in the document
store. -/
structure OrderRec where
  paymentStatus : Option PaymentStatus
  orderStatus : Option OrderStatus
  paymentReference : Option String
  amountPaid : Option Nat
deriving DecidableEq, Repr

/-- The document store, keyed by order document id. -/
def Db : Type := String → OrderRec

/-- Semantics of one write effect on the document store; messages leave the
store unchanged. -/
def applyEffect (db : Db) : Effect → Db
  | .updatePayment oid st ref amt => fun k =>
      if k = oid then ⟨some st, (db k).orderStatus, ref, amt⟩ else db k
  | .updateStatus oid st _ _ => fun k =>
      if k = oid then
        ⟨(db k).paymentStatus, some st, (db k).paymentReference,
          (db k).amountPaid⟩
      else db k
  | _ => db

/-- Apply a trace of effects to the document store, in order. -/
def applyTrace (db : Db) (t : List Effect) : Db := t.foldl applyEffect db

/-- Generic API response shape used by the database service wrappers. -/
structure ApiResp (α : Type) where
  success : Bool
  data : Option α
deriving DecidableEq, Repr

/-- The order fields the receipt page and renderer read. -/
structure OrderDoc where
  customerId : String
  orderNumber : String
  totalAmount : Nat
  discountAmount : Nat
  finalAmount : Nat
deriving DecidableEq, Repr

/-- The order-item fields the receipt renderer reads. -/
structure OrderItemDoc where
  serviceId : String
  quantity : Nat
  unitPrice : Nat
  totalPrice : Nat
deriving DecidableEq, Repr

/-- The service-catalog fields the receipt renderer reads. -/
structure ServiceDoc where
  id : String
  name : String
deriving DecidableEq, Repr

/-- The component state of the receipt page after loadOrderData ran. -/
structure ReceiptPageState where
  error : String
  order : Option OrderDoc
  items : List OrderItemDoc
  services : List ServiceDoc
deriving DecidableEq, Repr

/-- loadOrderData from the receipt page: an order-lookup failure yields
error Order not found; a customerId different from the current user id
yields error Access denied without storing the order; otherwise the order
and items are stored and the active services are loaded best-effort.  A
thrown call (the Except error case) is caught and yields error Failed to
load order data. -/
def loadOrderData
    (orderResp : Except Unit (ApiResp (OrderDoc × List OrderItemDoc)))
    (servicesResp : Except Unit (ApiResp (List ServiceDoc)))
    (userId : Option String) : ReceiptPageState :=
  match orderResp with
  | .error _ => ⟨"Failed to load order data", none, [], []⟩
  | .ok r =>
    match r.success, r.data with
    | true, some (o, its) =>
      if userId = some o.customerId then
        match servicesResp with
        | .error _ => ⟨"Failed to load order data", some o, its, []⟩
        | .ok sr =>
          match sr.success, sr.data with
          | true, some svcs => ⟨"", some o, its, svcs⟩
          | _, _ => ⟨"", some o, its, []⟩
      else ⟨"Access denied", none, [], []⟩
    | _, _ => ⟨"Order not found", none, [], []⟩

/-- The receipt page renders the receipt (rather than the error screen)
exactly when no error was set and an order was stored. -/
def receiptShown (st : ReceiptPageState) : Bool :=
  st.error == "" && st.order.isSome

/-- The totals block of the rendered receipt: the subtotal line shows
totalAmount, the discount line is shown only when discountAmount is
positive, and the total line shows finalAmount. -/
structure ReceiptTotalsView where
  subtotalLine : Nat
  discountLine : Option Nat
  totalLine : Nat
deriving DecidableEq, Repr

/-- The three amount lines of the OrderReceipt component for an order. -/
def receiptTotals (o : OrderDoc) : ReceiptTotalsView :=
  ⟨o.totalAmount,
   if 0 < o.discountAmount then some o.discountAmount else none,
   o.finalAmount⟩

/-- Modelled from the spec: the order-creation flow (booking form and
database service, not present under src/) stores amounts in minor currency
units and computes finalAmount as totalAmount minus discountAmount
(spec section 3: totalAmount minus discountAmount equals finalAmount). -/
def mkOrder (customerId orderNumber : String)
    (totalAmount discountAmount : Nat) : OrderDoc :=
  ⟨customerId, orderNumber, totalAmount, discountAmount,
   totalAmount - discountAmount⟩

/-- External-results record where every call returns success, used to
instantiate theorems at concrete inputs. -/
def extAllOk : ExternalResults :=
  ⟨.ok true, .ok true, .ok true, .ok true, .ok true⟩

/-- Splitting a trace splits its write count. -/
theorem countWrites_append (a b : List Effect) :
    countWrites (a ++ b) = countWrites a + countWrites b := by
  simp [countWrites, List.filter_append]

/-- Truthiness of a present, nonempty string. -/
theorem truthy_some_of_ne (s : String) (h : s ≠ "") :
    truthy (some s) = true := by
  simp [truthy, bne_iff_ne, h]

/-- Claim C1: a POST request whose x-paystack-signature header is missing or
fails verification gets HTTP 400 with an error body, and no database write
or notification call is made. -/
theorem webhook_invalid_signature_rejected
    (hmac : String → String → String) (secret : Option String)
    (body : String) (sigHeader : Option String)
    (parsed : Except Unit WebhookEvent) (ext : ExternalResults)
    (h : ∀ s, sigHeader = some s →
      verifyPaystackSignature hmac secret body s = false) :
    (POST hmac secret body sigHeader parsed ext).1.httpStatus = 400 ∧
    (POST hmac secret body sigHeader parsed ext).1.errorMsg.isSome = true ∧
    (POST hmac secret body sigHeader parsed ext).2 = [] := by
  cases sigHeader with
  | none => exact ⟨rfl, rfl, rfl⟩
  | some s =>
    have hv := h s rfl
    simp [POST, hv]

/-- Concrete instance of webhook_invalid_signature_rejected: a wrong
signature string for a present secret. -/
theorem webhook_invalid_signature_rejected_witness :
    (POST (fun k b => k ++ b) (some "sek") "B" (some "bad")
      (Except.error ()) extAllOk).1.httpStatus = 400 ∧
    (POST (fun k b => k ++ b) (some "sek") "B" (some "bad")
      (Except.error ()) extAllOk).1.errorMsg.isSome = true ∧
    (POST (fun k b => k ++ b) (some "sek") "B" (some "bad")
      (Except.error ()) extAllOk).2 = [] :=
  webhook_invalid_signature_rejected (fun k b => k ++ b) (some "sek") "B"
    (some "bad") (Except.error ()) extAllOk
    (fun s hs => by injection hs with h; rw [← h]; decide)

/-- Claim C2: with a configured (nonempty) secret, verifyPaystackSignature
accepts exactly when the supplied signature string equals the hex digest of
the body, and any other signature makes POST answer 400 with no calls. -/
theorem verify_signature_exact_equality
    (hmac : String → String → String) (s body sig : String)
    (parsed : Except Unit WebhookEvent) (ext : ExternalResults)
    (hs : s ≠ "") :
    (verifyPaystackSignature hmac (some s) body sig = true ↔
      sig = hmac s body) ∧
    (sig ≠ hmac s body →
      (POST hmac (some s) body (some sig) parsed ext).1.httpStatus = 400 ∧
      (POST hmac (some s) body (some sig) parsed ext).2 = []) := by
  have ht : truthy (some s) = true := truthy_some_of_ne s hs
  have hiff : verifyPaystackSignature hmac (some s) body sig = true ↔
      sig = hmac s body := by
    simp only [verifyPaystackSignature, ht, eq_self_iff_true, if_true,
      Option.getD_some, beq_iff_eq]
    exact eq_comm
  refine ⟨hiff, fun hne => ?_⟩
  have hv : verifyPaystackSignature hmac (some s) body sig = false := by
    cases hb : verifyPaystackSignature hmac (some s) body sig with
    | false => rfl
    | true => exact absurd (hiff.mp hb) hne
  simp [POST, hv]

/-- Concrete instance of verify_signature_exact_equality: a signature not
equal to the digest is rejected with 400 and no calls. -/
theorem verify_signature_exact_equality_witness :
    (POST (fun k b => k ++ b) (some "k") "B" (some "x")
      (Except.error ()) extAllOk).1.httpStatus = 400 ∧
    (POST (fun k b => k ++ b) (some "k") "B" (some "x")
      (Except.error ()) extAllOk).2 = [] :=
  (verify_signature_exact_equality (fun k b => k ++ b) "k" "B" "x"
    (Except.error ()) extAllOk (by decide)).2 (by decide)

/-- Claim C9: with no configured secret, verifyPaystackSignature is false
for every body and signature, so every request is answered 400 with no
calls, whatever signature header it carries. -/
theorem unset_secret_rejects_everything
    (hmac : String → String → String) (body sig : String)
    (sigHeader : Option String) (parsed : Except Unit WebhookEvent)
    (ext : ExternalResults) :
    verifyPaystackSignature hmac none body sig = false ∧
    (POST hmac none body sigHeader parsed ext).1.httpStatus = 400 ∧
    (POST hmac none body sigHeader parsed ext).2 = [] := by
  refine ⟨rfl, ?_⟩
  cases sigHeader with
  | none => exact ⟨rfl, rfl⟩
  | some s => exact ⟨rfl, rfl⟩

/-- Claim C5 counterexample: a request whose signature verifies but whose
body is not JSON (JSON.parse throws) is answered 500, not 200. -/
theorem valid_signature_unparsable_body_returns_500 :
    verifyPaystackSignature (fun k b => k ++ b) (some "k") "not json"
      "knot json" = true ∧
    (POST (fun k b => k ++ b) (some "k") "not json" (some "knot json")
      (Except.error ()) extAllOk).1.httpStatus = 500 ∧
    (POST (fun k b => k ++ b) (some "k") "not json" (some "knot json")
      (Except.error ()) extAllOk).1.httpStatus ≠ 200 := by
  decide

/-- Claim C5 (amended): every request whose signature verifies and whose
body parses as JSON is answered 200 with body status success, for every
event type (handled or not) and every outcome of the external calls,
thrown included. -/
theorem valid_signature_parsed_returns_success
    (hmac : String → String → String) (secret : Option String)
    (body sig : String) (ev : WebhookEvent) (ext : ExternalResults)
    (hv : verifyPaystackSignature hmac secret body sig = true) :
    (POST hmac secret body (some sig) (Except.ok ev) ext).1 =
      ⟨200, none, some "success"⟩ := by
  simp only [POST]
  rw [hv]
  rfl

/-- Concrete instance of valid_signature_parsed_returns_success: an
unhandled event type with every external call throwing still gets 200. -/
theorem valid_signature_parsed_returns_success_witness :
    (POST (fun k b => k ++ b) (some "k") "B" (some "kB")
      (Except.ok ⟨some "weird.event", ⟨none, none, none⟩⟩)
      ⟨.threw, .threw, .threw, .threw, .threw⟩).1 =
      ⟨200, none, some "success"⟩ :=
  valid_signature_parsed_returns_success (fun k b => k ++ b) (some "k")
    "B" "kB" ⟨some "weird.event", ⟨none, none, none⟩⟩
    ⟨.threw, .threw, .threw, .threw, .threw⟩ (by decide)

/-- A validly signed, parsed request is answered 200 and dispatches on the
event-type string. -/
theorem POST_valid_ok (hmac : String → String → String)
    (secret : Option String) (body sig : String) (ev : WebhookEvent)
    (ext : ExternalResults)
    (hv : verifyPaystackSignature hmac secret body sig = true) :
    POST hmac secret body (some sig) (Except.ok ev) ext =
      (⟨200, none, some "success"⟩,
        match ev.event with
        | none => []
        | some en =>
          if en = "charge.success" then
            handlePaymentSuccess ev.data ext.successUpdatePayment
              ext.successUpdateStatus ext.successSend
          else if en = "charge.failed" then
            handlePaymentFailed ev.data ext.failedUpdatePayment
              ext.failedSend
          else if en = "transfer.success" then []
          else if en = "transfer.failed" then []
          else []) := by
  simp only [POST]
  rw [hv]
  rfl

/-- The Paystack event payload of the worked spec example. -/
def exampleSuccessMetadata : PaymentMetadata :=
  ⟨some "o1", some "+2348000000000", some "Ada", none, none⟩

/-- The data object of the worked spec example. -/
def exampleSuccessData : EventData :=
  ⟨some "abc123", none, some exampleSuccessMetadata⟩

/-- The worked spec example event. -/
def exampleSuccessEvent : WebhookEvent :=
  ⟨some "charge.success", exampleSuccessData⟩

/-- An empty document store, used to instantiate theorems. -/
def db0 : Db := fun _ => ⟨none, none, none, none⟩

/-- Claim C3: the validly signed worked example charge.success event gets
200, writes payment-status paid then order-status confirmed for order o1,
and makes exactly one notification call, with arguments
+2348000000000, Ada, o1. -/
theorem charge_success_example_processing
    (hmac : String → String → String) (secret : Option String)
    (body sig : String) (ext : ExternalResults)
    (hv : verifyPaystackSignature hmac secret body sig = true)
    (h1 : ext.successUpdatePayment = CallResult.ok true)
    (h2 : ext.successUpdateStatus = CallResult.ok true) :
    POST hmac secret body (some sig) (Except.ok exampleSuccessEvent) ext =
      (⟨200, none, some "success"⟩,
       [Effect.updatePayment "o1" PaymentStatus.paid (some "abc123") none,
        Effect.updateStatus "o1" OrderStatus.confirmed "system"
          "Payment confirmed - Order ready for pickup",
        Effect.pickupConfirmation "+2348000000000" "Ada" "o1"]) ∧
    countSends (POST hmac secret body (some sig)
      (Except.ok exampleSuccessEvent) ext).2 = 1 := by
  have hpost : POST hmac secret body (some sig)
      (Except.ok exampleSuccessEvent) ext =
      (⟨200, none, some "success"⟩,
       handlePaymentSuccess exampleSuccessData ext.successUpdatePayment
         ext.successUpdateStatus ext.successSend) := by
    rw [POST_valid_ok hmac secret body sig exampleSuccessEvent ext hv]
    rfl
  rw [hpost, h1, h2]
  exact ⟨rfl, rfl⟩

/-- Concrete instance of charge_success_example_processing with a digest
function, secret and matching signature, and succeeding external calls. -/
theorem charge_success_example_processing_witness :
    POST (fun k b => k ++ b) (some "k") "B" (some "kB")
      (Except.ok exampleSuccessEvent) extAllOk =
      (⟨200, none, some "success"⟩,
       [Effect.updatePayment "o1" PaymentStatus.paid (some "abc123") none,
        Effect.updateStatus "o1" OrderStatus.confirmed "system"
          "Payment confirmed - Order ready for pickup",
        Effect.pickupConfirmation "+2348000000000" "Ada" "o1"]) ∧
    countSends (POST (fun k b => k ++ b) (some "k") "B" (some "kB")
      (Except.ok exampleSuccessEvent) extAllOk).2 = 1 :=
  charge_success_example_processing (fun k b => k ++ b) (some "k") "B" "kB"
    extAllOk (by decide) rfl rfl

/-- Claim C10: on a validly signed charge.success event, when the
payment-status write returns success false, or the metadata carries no
truthy orderId, the trace holds at most that first write (no order-status
write, no notification), and the response is still 200. -/
theorem payment_update_failure_stops_processing
    (hmac : String → String → String) (secret : Option String)
    (body sig : String) (ev : WebhookEvent) (ext : ExternalResults)
    (hv : verifyPaystackSignature hmac secret body sig = true)
    (he : ev.event = some "charge.success")
    (h : ext.successUpdatePayment = CallResult.ok false ∨
      ∀ md, ev.data.metadata = some md → truthy md.orderId = false) :
    (POST hmac secret body (some sig) (Except.ok ev) ext).1.httpStatus =
      200 ∧
    ((POST hmac secret body (some sig) (Except.ok ev) ext).2 = [] ∨
      ∃ oid r a, (POST hmac secret body (some sig) (Except.ok ev) ext).2 =
        [Effect.updatePayment oid PaymentStatus.paid r a]) := by
  have hpost : POST hmac secret body (some sig) (Except.ok ev) ext =
      (⟨200, none, some "success"⟩,
       handlePaymentSuccess ev.data ext.successUpdatePayment
         ext.successUpdateStatus ext.successSend) := by
    rw [POST_valid_ok hmac secret body sig ev ext hv, he]
    rfl
  rw [hpost]
  refine ⟨rfl, ?_⟩
  cases hm : ev.data.metadata with
  | none => left; simp [handlePaymentSuccess, hm]
  | some md =>
    by_cases ho : truthy md.orderId = true
    · rcases h with h1 | h2
      · right
        refine ⟨md.orderId.getD "", ev.data.reference, ev.data.amount, ?_⟩
        simp [handlePaymentSuccess, hm, ho, h1]
      · exact absurd (h2 md hm) (by simp [ho])
    · left
      have ho' : truthy md.orderId = false := by
        cases hb : truthy md.orderId with
        | false => rfl
        | true => exact absurd hb ho
      simp [handlePaymentSuccess, hm, ho']

/-- Concrete instance of payment_update_failure_stops_processing: the
payment-status write reports success false. -/
theorem payment_update_failure_stops_processing_witness :
    (POST (fun k b => k ++ b) (some "k") "B" (some "kB")
      (Except.ok exampleSuccessEvent)
      ⟨.ok false, .ok true, .ok true, .ok true, .ok true⟩).1.httpStatus =
      200 ∧
    ((POST (fun k b => k ++ b) (some "k") "B" (some "kB")
      (Except.ok exampleSuccessEvent)
      ⟨.ok false, .ok true, .ok true, .ok true, .ok true⟩).2 = [] ∨
      ∃ oid r a, (POST (fun k b => k ++ b) (some "k") "B" (some "kB")
        (Except.ok exampleSuccessEvent)
        ⟨.ok false, .ok true, .ok true, .ok true, .ok true⟩).2 =
        [Effect.updatePayment oid PaymentStatus.paid r a]) :=
  payment_update_failure_stops_processing (fun k b => k ++ b) (some "k")
    "B" "kB" exampleSuccessEvent
    ⟨.ok false, .ok true, .ok true, .ok true, .ok true⟩
    (by decide) rfl (Or.inl rfl)

/-- Claim C4 counterexample: a validly signed charge.failed event whose
metadata carries an orderId but no customerPhone or customerName makes the
payment-status write and then fires no notification at all. -/
theorem charge_failed_without_contact_no_reminder :
    (POST (fun k b => k ++ b) (some "k") "B" (some "kB")
      (Except.ok ⟨some "charge.failed",
        ⟨some "ref1", none, some ⟨some "o1", none, none, none, none⟩⟩⟩)
      extAllOk).2 =
      [Effect.updatePayment "o1" PaymentStatus.failed (some "ref1")
        (some 0)] ∧
    countSends (POST (fun k b => k ++ b) (some "k") "B" (some "kB")
      (Except.ok ⟨some "charge.failed",
        ⟨some "ref1", none, some ⟨some "o1", none, none, none, none⟩⟩⟩)
      extAllOk).2 = 0 := by
  decide

/-- Claim C4 (amended): a validly signed charge.failed event whose metadata
carries a truthy orderId always makes the payment-status failed write
first, never sends a pickup confirmation, and when the metadata also
carries truthy customerPhone and customerName and the write call did not
throw, sends exactly one payment reminder. -/
theorem charge_failed_event_processing
    (hmac : String → String → String) (secret : Option String)
    (body sig : String) (ev : WebhookEvent) (ext : ExternalResults)
    (md : PaymentMetadata) (oid : String)
    (hv : verifyPaystackSignature hmac secret body sig = true)
    (he : ev.event = some "charge.failed")
    (hm : ev.data.metadata = some md)
    (ho : md.orderId = some oid) (hoid : oid ≠ "") :
    (POST hmac secret body (some sig) (Except.ok ev) ext).2.head? =
      some (Effect.updatePayment oid PaymentStatus.failed
        ev.data.reference (some 0)) ∧
    (∀ p n r, Effect.pickupConfirmation p n r ∉
      (POST hmac secret body (some sig) (Except.ok ev) ext).2) ∧
    (truthy md.customerPhone = true → truthy md.customerName = true →
      ext.failedUpdatePayment ≠ CallResult.threw →
      (POST hmac secret body (some sig) (Except.ok ev) ext).2 =
        [Effect.updatePayment oid PaymentStatus.failed
          ev.data.reference (some 0),
         Effect.paymentReminder (md.customerPhone.getD "")
           (md.customerName.getD "") (jsOr md.orderNumber oid)
           (md.amount.getD 0)]) := by
  have hpost : POST hmac secret body (some sig) (Except.ok ev) ext =
      (⟨200, none, some "success"⟩,
       handlePaymentFailed ev.data ext.failedUpdatePayment
         ext.failedSend) := by
    rw [POST_valid_ok hmac secret body sig ev ext hv, he]
    rfl
  have htr : truthy md.orderId = true := by
    rw [ho]; exact truthy_some_of_ne oid hoid
  have hoid2 : md.orderId.getD "" = oid := by rw [ho]; rfl
  rw [hpost]
  cases ext.failedUpdatePayment with
  | threw =>
    have htrace : handlePaymentFailed ev.data CallResult.threw
        ext.failedSend =
        [Effect.updatePayment oid PaymentStatus.failed
          ev.data.reference (some 0)] := by
      simp [handlePaymentFailed, hm, htr, hoid2]
    rw [htrace]
    refine ⟨rfl, by simp, ?_⟩
    intro _ _ hthrew
    exact absurd rfl hthrew
  | ok b =>
    by_cases hc : (truthy md.customerPhone && truthy md.customerName) = true
    · have htrace : handlePaymentFailed ev.data (CallResult.ok b)
          ext.failedSend =
          [Effect.updatePayment oid PaymentStatus.failed
            ev.data.reference (some 0),
           Effect.paymentReminder (md.customerPhone.getD "")
             (md.customerName.getD "") (jsOr md.orderNumber oid)
             (md.amount.getD 0)] := by
        simp [handlePaymentFailed, hm, htr, hc, hoid2]
      rw [htrace]
      exact ⟨rfl, by simp, fun _ _ _ => rfl⟩
    · have htrace : handlePaymentFailed ev.data (CallResult.ok b)
          ext.failedSend =
          [Effect.updatePayment oid PaymentStatus.failed
            ev.data.reference (some 0)] := by
        simp [handlePaymentFailed, hm, htr, hc, hoid2]
      rw [htrace]
      refine ⟨rfl, by simp, ?_⟩
      intro hp hn _
      exact absurd (by rw [hp, hn]; rfl) hc

/-- Concrete instance of charge_failed_event_processing, with phone and
name present: exactly the failed write and one payment reminder. -/
theorem charge_failed_event_processing_witness :
    (POST (fun k b => k ++ b) (some "k") "B" (some "kB")
      (Except.ok ⟨some "charge.failed",
        ⟨some "ref1", none, some ⟨some "o1", some "+2348000000000",
          some "Ada", none, some 5000⟩⟩⟩) extAllOk).2 =
      [Effect.updatePayment "o1" PaymentStatus.failed (some "ref1")
        (some 0),
       Effect.paymentReminder "+2348000000000" "Ada" "o1" 5000] :=
  (charge_failed_event_processing (fun k b => k ++ b) (some "k") "B" "kB"
    ⟨some "charge.failed", ⟨some "ref1", none, some ⟨some "o1",
      some "+2348000000000", some "Ada", none, some 5000⟩⟩⟩ extAllOk
    ⟨some "o1", some "+2348000000000", some "Ada", none, some 5000⟩ "o1"
    (by decide) rfl rfl rfl (by decide)).2.2 rfl rfl (by decide)

/-- Claim C6: delivering the same validly signed charge.success payload
twice (same external results) re-emits the same trace, so the combined run
performs every database write twice, at least one write each time, yet
leaves the document store exactly as a single delivery does, with the
order on payment-status paid and status confirmed. -/
theorem charge_success_replay_behavior
    (hmac : String → String → String) (secret : Option String)
    (body sig : String) (ev : WebhookEvent) (ext : ExternalResults)
    (db : Db) (md : PaymentMetadata) (oid : String)
    (hv : verifyPaystackSignature hmac secret body sig = true)
    (he : ev.event = some "charge.success")
    (hm : ev.data.metadata = some md)
    (ho : md.orderId = some oid) (hoid : oid ≠ "")
    (h1 : ext.successUpdatePayment = CallResult.ok true)
    (h2 : ext.successUpdateStatus = CallResult.ok true) :
    ∀ t, t = (POST hmac secret body (some sig) (Except.ok ev) ext).2 →
      countWrites (t ++ t) = 2 * countWrites t ∧
      0 < countWrites t ∧
      applyTrace db (t ++ t) = applyTrace db t ∧
      (applyTrace db t oid).paymentStatus = some PaymentStatus.paid ∧
      (applyTrace db t oid).orderStatus = some OrderStatus.confirmed := by
  intro t ht
  have hcw : countWrites (t ++ t) = 2 * countWrites t := by
    rw [countWrites_append, two_mul]
  have hpost : (POST hmac secret body (some sig) (Except.ok ev) ext).2 =
      handlePaymentSuccess ev.data ext.successUpdatePayment
        ext.successUpdateStatus ext.successSend := by
    rw [POST_valid_ok hmac secret body sig ev ext hv, he]
    rfl
  have htr : truthy md.orderId = true := by
    rw [ho]; exact truthy_some_of_ne oid hoid
  have hoid2 : md.orderId.getD "" = oid := by rw [ho]; rfl
  by_cases hc : (truthy md.customerPhone && truthy md.customerName) = true
  · have htrace : t =
        [Effect.updatePayment oid PaymentStatus.paid
          ev.data.reference ev.data.amount,
         Effect.updateStatus oid OrderStatus.confirmed "system"
           "Payment confirmed - Order ready for pickup",
         Effect.pickupConfirmation (md.customerPhone.getD "")
           (md.customerName.getD "") (jsOr md.orderNumber oid)] := by
      rw [ht, hpost, h1, h2]
      simp [handlePaymentSuccess, hm, htr, hc, hoid2]
    subst htrace
    refine ⟨hcw, by simp [countWrites, isDbWrite], ?_, ?_, ?_⟩
    · funext k
      by_cases hk : k = oid <;>
        simp [applyTrace, applyEffect, hk]
    · simp [applyTrace, applyEffect]
    · simp [applyTrace, applyEffect]
  · have htrace : t =
        [Effect.updatePayment oid PaymentStatus.paid
          ev.data.reference ev.data.amount,
         Effect.updateStatus oid OrderStatus.confirmed "system"
           "Payment confirmed - Order ready for pickup"] := by
      rw [ht, hpost, h1, h2]
      simp [handlePaymentSuccess, hm, htr, hc, hoid2]
    subst htrace
    refine ⟨hcw, by simp [countWrites, isDbWrite], ?_, ?_, ?_⟩
    · funext k
      by_cases hk : k = oid <;>
        simp [applyTrace, applyEffect, hk]
    · simp [applyTrace, applyEffect]
    · simp [applyTrace, applyEffect]

/-- Concrete instance of charge_success_replay_behavior, on the worked
example event against an empty store. -/
theorem charge_success_replay_behavior_witness :
    countWrites
      ([Effect.updatePayment "o1" PaymentStatus.paid (some "abc123") none,
        Effect.updateStatus "o1" OrderStatus.confirmed "system"
          "Payment confirmed - Order ready for pickup",
        Effect.pickupConfirmation "+2348000000000" "Ada" "o1"] ++
       [Effect.updatePayment "o1" PaymentStatus.paid (some "abc123") none,
        Effect.updateStatus "o1" OrderStatus.confirmed "system"
          "Payment confirmed - Order ready for pickup",
        Effect.pickupConfirmation "+2348000000000" "Ada" "o1"]) =
      2 * countWrites
        [Effect.updatePayment "o1" PaymentStatus.paid (some "abc123") none,
         Effect.updateStatus "o1" OrderStatus.confirmed "system"
           "Payment confirmed - Order ready for pickup",
         Effect.pickupConfirmation "+2348000000000" "Ada" "o1"] ∧
    0 < countWrites
      [Effect.updatePayment "o1" PaymentStatus.paid (some "abc123") none,
       Effect.updateStatus "o1" OrderStatus.confirmed "system"
         "Payment confirmed - Order ready for pickup",
       Effect.pickupConfirmation "+2348000000000" "Ada" "o1"] ∧
    applyTrace db0
      ([Effect.updatePayment "o1" PaymentStatus.paid (some "abc123") none,
        Effect.updateStatus "o1" OrderStatus.confirmed "system"
          "Payment confirmed - Order ready for pickup",
        Effect.pickupConfirmation "+2348000000000" "Ada" "o1"] ++
       [Effect.updatePayment "o1" PaymentStatus.paid (some "abc123") none,
        Effect.updateStatus "o1" OrderStatus.confirmed "system"
          "Payment confirmed - Order ready for pickup",
        Effect.pickupConfirmation "+2348000000000" "Ada" "o1"]) =
      applyTrace db0
        [Effect.updatePayment "o1" PaymentStatus.paid (some "abc123") none,
         Effect.updateStatus "o1" OrderStatus.confirmed "system"
           "Payment confirmed - Order ready for pickup",
         Effect.pickupConfirmation "+2348000000000" "Ada" "o1"] ∧
    (applyTrace db0
      [Effect.updatePayment "o1" PaymentStatus.paid (some "abc123") none,
       Effect.updateStatus "o1" OrderStatus.confirmed "system"
         "Payment confirmed - Order ready for pickup",
       Effect.pickupConfirmation "+2348000000000" "Ada" "o1"]
      "o1").paymentStatus = some PaymentStatus.paid ∧
    (applyTrace db0
      [Effect.updatePayment "o1" PaymentStatus.paid (some "abc123") none,
       Effect.updateStatus "o1" OrderStatus.confirmed "system"
         "Payment confirmed - Order ready for pickup",
       Effect.pickupConfirmation "+2348000000000" "Ada" "o1"]
      "o1").orderStatus = some OrderStatus.confirmed :=
  charge_success_replay_behavior (fun k b => k ++ b) (some "k") "B" "kB"
    exampleSuccessEvent extAllOk db0 exampleSuccessMetadata "o1"
    (by decide) rfl rfl rfl (by decide) rfl rfl
    [Effect.updatePayment "o1" PaymentStatus.paid (some "abc123") none,
     Effect.updateStatus "o1" OrderStatus.confirmed "system"
       "Payment confirmed - Order ready for pickup",
     Effect.pickupConfirmation "+2348000000000" "Ada" "o1"]
    (by decide)

/-- Claim C7: the receipt page shows the order only when the current user
id equals the order customerId; a successful lookup of an order belonging
to a different customer yields the Access denied state with no order data
stored. -/
theorem receipt_access_control
    (orderResp : Except Unit (ApiResp (OrderDoc × List OrderItemDoc)))
    (servicesResp : Except Unit (ApiResp (List ServiceDoc)))
    (userId : Option String) :
    (receiptShown (loadOrderData orderResp servicesResp userId) = true →
      ∃ o, (loadOrderData orderResp servicesResp userId).order = some o ∧
        userId = some o.customerId) ∧
    (∀ r o its, orderResp = Except.ok r → r.success = true →
      r.data = some (o, its) → userId ≠ some o.customerId →
      loadOrderData orderResp servicesResp userId =
        ⟨"Access denied", none, [], []⟩) := by
  constructor
  · intro hshow
    cases orderResp with
    | error u => simp [loadOrderData, receiptShown] at hshow
    | ok r =>
      obtain ⟨su, da⟩ := r
      cases su with
      | false => simp [loadOrderData, receiptShown] at hshow
      | true =>
        cases da with
        | none => simp [loadOrderData, receiptShown] at hshow
        | some pr =>
          obtain ⟨o, its⟩ := pr
          by_cases hu : userId = some o.customerId
          · refine ⟨o, ?_, hu⟩
            cases servicesResp with
            | error _ => simp [loadOrderData, hu]
            | ok sr =>
              obtain ⟨ss, sd⟩ := sr
              cases ss with
              | false => simp [loadOrderData, hu]
              | true => cases sd <;> simp [loadOrderData, hu]
          · simp [loadOrderData, receiptShown, hu] at hshow
  · intro r o its hr hsu hd hu
    subst hr
    obtain ⟨su, da⟩ := r
    simp only at hsu hd
    subst hsu
    subst hd
    simp [loadOrderData, hu]

/-- Concrete instance of receipt_access_control: user bob requesting an
order belonging to alice is denied. -/
theorem receipt_access_control_witness :
    loadOrderData
      (Except.ok ⟨true, some (⟨"alice", "N1", 1000, 0, 1000⟩, [])⟩)
      (Except.ok ⟨true, some []⟩) (some "bob") =
      ⟨"Access denied", none, [], []⟩ :=
  (receipt_access_control
    (Except.ok ⟨true, some (⟨"alice", "N1", 1000, 0, 1000⟩, [])⟩)
    (Except.ok ⟨true, some []⟩) (some "bob")).2
    ⟨true, some (⟨"alice", "N1", 1000, 0, 1000⟩, [])⟩
    ⟨"alice", "N1", 1000, 0, 1000⟩ [] rfl rfl rfl (by decide)

/-- Claim C8: for every order produced by the (spec-modelled) creation
flow, the totals block of the rendered receipt satisfies
total = subtotal minus the displayed discount (0 when the discount line is
hidden), since finalAmount is created as totalAmount minus
discountAmount. -/
theorem receipt_totals_relation (customerId orderNumber : String)
    (totalAmount discountAmount : Nat) :
    (receiptTotals (mkOrder customerId orderNumber totalAmount
      discountAmount)).totalLine =
      (receiptTotals (mkOrder customerId orderNumber totalAmount
        discountAmount)).subtotalLine -
      ((receiptTotals (mkOrder customerId orderNumber totalAmount
        discountAmount)).discountLine.getD 0) ∧
    (mkOrder customerId orderNumber totalAmount
      discountAmount).finalAmount =
      (mkOrder customerId orderNumber totalAmount
        discountAmount).totalAmount -
      (mkOrder customerId orderNumber totalAmount
        discountAmount).discountAmount := by
  refine ⟨?_, rfl⟩
  by_cases h : 0 < discountAmount
  · simp [receiptTotals, mkOrder, h]
  · have h0 : discountAmount = 0 := Nat.eq_zero_of_not_pos h
    subst h0
    simp [receiptTotals, mkOrder]

end Gabz


